import Mathlib

/-!
Verification development for pygaarst.raster (file src/pygaarst/raster.py).

The Python module is shallowly embedded: pure string manipulation is
translated to Lean string functions, metadata dictionaries become
association lists, exceptions become an explicit error type, and the
side effects of attribute access (metadata lookup, band construction,
file creation) are recorded as explicit event lists or state threading.
Numeric pixel arithmetic is carried out over the rationals; the
transcendental parts of the physical formulas (sine, natural logarithm,
pi) are kept symbolic in result payloads, since the claims under study
concern control flow, key construction, caching and error propagation,
not floating-point values.
-/

set_option autoImplicit false

deriving instance DecidableEq for Except

namespace Pygaarst

/-! ## Python string primitives used by raster.py -/

/-- Python str.lower. -/
def pyLower (s : String) : String := String.mk (s.data.map Char.toLower)

/-- Python str.upper. -/
def pyUpper (s : String) : String := String.mk (s.data.map Char.toUpper)

/-- Python str.startswith. -/
def pyStartsWith (s pat : String) : Bool := pat.data.isPrefixOf s.data

/-- Python str.endswith. -/
def pyEndsWith (s pat : String) : Bool := pat.data.isSuffixOf s.data

/-- Index of the first occurrence of `pat` in `l`, if any. -/
def findSubAux (pat : List Char) : List Char → ℕ → Option ℕ
  | [], i => if pat.isPrefixOf ([] : List Char) then some i else none
  | c :: t, i =>
      if pat.isPrefixOf (c :: t) then some i else findSubAux pat t (i + 1)

/-- Python str.partition: split at the first occurrence of `pat` into
(head, separator, tail); if `pat` does not occur, returns (s, empty, empty). -/
def pyPartition (s pat : String) : String × String × String :=
  match findSubAux pat.data s.data 0 with
  | none => (s, "", "")
  | some i =>
      (String.mk (s.data.take i), pat,
       String.mk (s.data.drop (i + pat.data.length)))

/-- Python str.replace with a single-character pattern (the only form used
by raster.py: replacing the gain suffixes L and H). Replaces every
occurrence of `c` by `r`. -/
def replaceChar (c : Char) (r : String) (s : String) : String :=
  String.mk (s.data.foldr (fun ch acc => if ch = c then r.data ++ acc else ch :: acc) [])

/-- Index of the last occurrence of `c` in `l`, if any. -/
def lastIndexOf (c : Char) : List Char → Option ℕ
  | [] => none
  | a :: t =>
      match lastIndexOf c t with
      | some j => some (j + 1)
      | none => if a = c then some 0 else none

/-- Python os.path.split for POSIX paths: split off the final path
component; the head keeps no trailing slashes unless it is all slashes. -/
def pySplit (p : String) : String × String :=
  match lastIndexOf '/' p.data with
  | none => ("", p)
  | some i =>
      let head := p.data.take (i + 1)
      let tail := p.data.drop (i + 1)
      let head2 := if head.all (· = '/') then head
                   else (head.reverse.dropWhile (· = '/')).reverse
      (String.mk head2, String.mk tail)

/-- Python os.path.splitext for POSIX paths: split off the extension at the
last dot of the final component, provided that component has a non-dot
character before the dot. -/
def pySplitext (p : String) : String × String :=
  let l := p.data
  match lastIndexOf '.' l with
  | none => (p, "")
  | some di =>
      let si := ((lastIndexOf '/' l).map (· + 1)).getD 0
      if di ≤ si then (p, "")
      else if ((l.drop si).take (di - si)).all (· = '.') then (p, "")
      else (String.mk (l.take di), String.mk (l.drop di))

/-- Python os.path.join for two POSIX path components. -/
def pyJoin (a b : String) : String :=
  if pyStartsWith b "/" then b
  else if a = "" then b
  else if pyEndsWith a "/" then a ++ b
  else a ++ "/" ++ b

/-- Python str.join with a separator, as in the permissible-band message. -/
def joinSep (sep : String) : List String → String
  | [] => ""
  | [a] => a
  | a :: b :: t => a ++ sep ++ joinSep sep (b :: t)

/-! ## Dictionaries and metadata values -/

/-- Association-list lookup (Python dict read access). -/
def alookup {α β : Type} [DecidableEq α] : List (α × β) → α → Option β
  | [], _ => none
  | (a, b) :: t, k => if a = k then some b else alookup t k

/-- Association-list update (Python dict write access). -/
def dictSet {α β : Type} [DecidableEq α] : List (α × β) → α → β → List (α × β)
  | [], k, v => [(k, v)]
  | (a, b) :: t, k, v => if a = k then (k, v) :: t else (a, b) :: dictSet t k v

/-- A value stored in a parsed Landsat metadata file: the metadata parser
(collaborator) yields strings, numbers, or dates.  Numbers are modelled
as rationals. -/
inductive Val where
  | str : String → Val
  | rat : ℚ → Val
  | date : ℕ → ℕ → ℕ → Val
deriving DecidableEq

/-- One metadata group: key to value. -/
abbrev Group := List (String × Val)

/-- A parsed metadata file: group name to group. -/
abbrev Metadata := List (String × Group)

/-- The Python exceptions that can surface from the embedded code. -/
inductive PyErr where
  | pygaarstRasterError : String → PyErr
  | keyError : String → PyErr
  | attributeError : String → PyErr
  | typeError : String → PyErr
  | runtimeError : String → PyErr
  | indexError : String → PyErr
deriving DecidableEq

/-- Nested metadata lookup meta[group][key]; a missing group or key raises
KeyError carrying the missing name (Python formats KeyError with
surrounding quotes; the quotes are omitted here). -/
def lookupMeta (m : Metadata) (group key : String) : Except PyErr Val :=
  match alookup m group with
  | none => .error (.keyError group)
  | some g =>
      match alookup g key with
      | none => .error (.keyError key)
      | some v => .ok v

/-- Python equality test of a metadata value against a string literal:
only a string value can compare equal. -/
def valEqStr (v : Val) (s : String) : Bool :=
  match v with
  | .str t => t = s
  | _ => false

/-- Coerce a metadata value to a number, as arithmetic on it would in
Python; a non-numeric value fails with TypeError. -/
def valToRat (v : Val) : Except PyErr ℚ :=
  match v with
  | .rat q => .ok q
  | _ => .error (.typeError "unsupported operand type for arithmetic")

/-! ## Radiometric converter helpers

These helpers live in pygaarst.landsatutils, which is not part of the
sources under study; the specification gives their formulas exactly. -/

/-- Modelled from the spec: lu.dn2rad, elementwise pixel * gain + bias
(spec section 4.2, digitalNumberToRadiance). -/
def dn2rad (data : List ℚ) (gain bias : ℚ) : List ℚ :=
  data.map (fun x => x * gain + bias)

/-- Modelled from the spec: lu.gainbias, gain = (max - min) / (qmax - qmin)
and bias = min - gain * qmin (spec section 4.2, gainBias). -/
def gainbias (lmax lmin qcalmax qcalmin : ℚ) : ℚ × ℚ :=
  let gain := (lmax - lmin) / (qcalmax - qcalmin)
  (gain, lmin - gain * qcalmin)

/-- Modelled from the spec: lu.normdiff, elementwise (a - b) / (a + b)
(spec section 4.2, normalizedDifference). -/
def normdiff (a b : List ℚ) : List ℚ :=
  List.zipWith (fun x y => (x - y) / (x + y)) a b

/-- Gregorian leap-year test, used for the day-of-year extraction that
Python performs via date.strftime with the j format code. -/
def isLeap (y : ℕ) : Bool := (y % 4 = 0 ∧ y % 100 ≠ 0) ∨ y % 400 = 0

/-- Cumulative days before the first day of month `m` in a common year. -/
def daysBefore (m : ℕ) : ℕ :=
  [0, 31, 59, 90, 120, 151, 181, 212, 243, 273, 304, 334].getD (m - 1) 0

/-- Day of year (Julian day within the year) of a calendar date. -/
def dayOfYear (y m d : ℕ) : ℕ :=
  daysBefore m + d + (if 2 < m ∧ isLeap y then 1 else 0)

/-! ## Data model: scenes and bands

Landsatband stores a reference to its owning scene; of the scene object a
band method only ever reads the metadata, the spacecraft identifier and
the metadata-format flag, so the band-side reference carries exactly
those three fields. -/

/-- The scene-level state a Landsatband reads through its scene reference. -/
structure SceneCore where
  meta : Metadata
  spacecraft : String
  newmetaformat : Bool
deriving DecidableEq

/-- A band of a Landsat scene (class Landsatband, raster.py lines
146-166).  The raw pixel array that the GeoTIFF layer would read from
disk is carried as the field `data`, flattened to a list of samples. -/
structure Landsatband where
  filepath : String
  band : Option String
  scene : Option SceneCore
  meta : Option Metadata
  data : List ℚ
deriving DecidableEq

/-- Landsatband.init (lines 152-166): with a scene, the metadata is taken
from the scene.  Without a scene the fallback parsemeta call reads
self.filepath before the superclass init has set it, raises
AttributeError, and is caught with a warning, so a standalone band always
starts with no metadata. -/
def mkLandsatband (filepath : String) (band : Option String)
    (scene : Option SceneCore) (data : List ℚ) : Landsatband :=
  { filepath := filepath, band := band, scene := scene,
    meta := scene.map (·.meta), data := data }

/-- A Landsat scene (class Landsatscene, raster.py lines 274-335).  The
field `disk` stands in for the filesystem the GeoTIFF accessor would
read band pixels from: a map from file path to flattened samples.  The
field `infx` is the filename infix inserted before the extension
(self.infix in the source, empty by default). -/
structure Landsatscene where
  dirname : String
  infx : String
  meta : Metadata
  newmetaformat : Bool
  spacecraft : String
  permissiblebands : List String
  bands : List (String × Landsatband)
  disk : List (String × List ℚ)
deriving DecidableEq

/-- The part of a scene its bands read back through their scene reference. -/
def Landsatscene.core (s : Landsatscene) : SceneCore :=
  { meta := s.meta, spacecraft := s.spacecraft, newmetaformat := s.newmetaformat }

/-! ## Band resolver (Landsatscene getattr override, lines 301-335) -/

/-- Observable side effects of one attribute access on a scene. -/
inductive Event where
  | metaLookup (group key : String)
  | constructBand (path : String)
deriving DecidableEq

/-- The metadata key the resolver reads the band file name from
(lines 321-327): under the new format the gain suffixes L and H become
the VCID tokens inside FILE_NAME_BAND_, under the legacy format they
become the digits 1 and 2 inside BAND..._FILE_NAME. -/
def resolveKeyname (newfmt : Bool) (band : String) : String :=
  if newfmt then
    "FILE_NAME_BAND_" ++ replaceChar 'H' "_VCID_2" (replaceChar 'L' "_VCID_1" band)
  else
    "BAND" ++ replaceChar 'H' "2" (replaceChar 'L' "1" band) ++ "_FILE_NAME"

/-- Result of the resolution step of one attribute access, before the
cache write: a resolved band plus its label and the effects performed, a
raised exception (with the effects performed before the raise), or the
fallback to ordinary object attribute lookup. -/
inductive RawRes where
  | band (b : Landsatband) (label : String) (events : List Event)
  | raised (e : PyErr) (events : List Event)
  | fallback
deriving DecidableEq

/-- Landsatscene.getattr, resolution part (lines 301-332): lowercase the
requested name, split at the literal text band, validate the label
against the permissible set, build the metadata key, look the file name
up, apply the infix and construct a Landsatband bound to this scene.
The try/except ValueError around the validation is omitted: no statement
in its body can raise ValueError. -/
def Landsatscene.getattrRaw (self : Landsatscene) (bandname : String) : RawRes :=
  match pyPartition (pyLower bandname) "band" with
  | (head, _sep, tail) =>
    let band := pyUpper tail
    if head = "" then
      if band ∈ self.permissiblebands then
        let keyname := resolveKeyname self.newmetaformat band
        match lookupMeta self.meta "PRODUCT_METADATA" keyname with
        | .error e => .raised e [.metaLookup "PRODUCT_METADATA" keyname]
        | .ok v =>
            match v with
            | .str bandfn =>
                let se := pySplitext bandfn
                let postprocessfn := se.1 ++ self.infx ++ se.2
                let bandpath := pyJoin self.dirname postprocessfn
                let b := mkLandsatband bandpath (some band) (some self.core)
                          ((alookup self.disk bandpath).getD [])
                .band b band [.metaLookup "PRODUCT_METADATA" keyname,
                              .constructBand bandpath]
            | _ => .raised (.typeError "splitext expects a str argument")
                     [.metaLookup "PRODUCT_METADATA" keyname]
      else
        .raised (.pygaarstRasterError
          ("Spacecraft " ++ self.spacecraft ++ " does not have a band " ++ band ++
           ". Permissible band labels are " ++ joinSep ", " self.permissiblebands ++ "."))
          []
    else .fallback

/-- Outcome of one attribute access of a band name on a scene: the band
returned together with the scene as mutated by the access and the
effects performed. -/
structure GetattrOk where
  band : Landsatband
  scene : Landsatscene
  events : List Event
deriving DecidableEq

/-- Full outcome of Landsatscene attribute interception. -/
inductive GetattrRes where
  | found (r : GetattrOk)
  | raised (e : PyErr) (events : List Event)
  | fallback
deriving DecidableEq

/-- Landsatscene.getattr (lines 301-335): resolution followed by the cache
write self.bands[band] = Landsatband(...) and return of the stored band. -/
def Landsatscene.getattr (self : Landsatscene) (bandname : String) : GetattrRes :=
  match self.getattrRaw bandname with
  | .band b label evs =>
      .found { band := b, scene := { self with bands := dictSet self.bands label b },
               events := evs }
  | .raised e evs => .raised e evs
  | .fallback => .fallback

/-- The effects an access performed, across all outcomes. -/
def GetattrRes.eventsOf : GetattrRes → List Event
  | .found r => r.events
  | .raised _ evs => evs
  | .fallback => []

/-- The band label extracted from an attribute name, as the source does
on lines 308-310. -/
def bandLabel (bandname : String) : String :=
  pyUpper (pyPartition (pyLower bandname) "band").2.2

/-! ## Landsatband calibration properties (lines 168-265) -/

/-- Python truthiness of the optional metadata dict: None and the empty
dict are falsy (the source guards with if not self.meta). -/
def metaFalsy : Option Metadata → Bool
  | none => true
  | some [] => true
  | some (_ :: _) => false

/-- Message of the TypeError Python raises when subscripting None, which
happens when a metadata lookup runs on a band whose meta is unset. -/
def noneSubscriptMsg : String := "NoneType object is not subscriptable"

/-- Python percent-formatting of the optional band label into a key name:
None formats as the text None. -/
def optBandStr : Option String → String
  | none => "None"
  | some s => s

/-- Landsatband.spacecraft property (lines 168-179).  With a scene the
scene attribute is returned; without one the lookup
meta[PRODUCT_METADATA][SPACECRAFT_ID] runs: on missing metadata it
raises TypeError (None is subscripted, which the except AttributeError
clause does not catch), on a missing key it raises KeyError (likewise
uncaught); the warning fallback is unreachable for dict-shaped metadata. -/
def Landsatband.spacecraftProp (self : Landsatband) : Except PyErr Val :=
  match self.scene with
  | some sc => .ok (.str sc.spacecraft)
  | none =>
      match self.meta with
      | none => .error (.typeError noneSubscriptMsg)
      | some m => lookupMeta m "PRODUCT_METADATA" "SPACECRAFT_ID"

/-- Landsatband.newmetaformat property (lines 181-196).  With a scene the
scene flag is returned; without one the new-format version key is tried,
KeyError falls back to the legacy software key (whose own KeyError
propagates); missing metadata raises TypeError.  The warning fallback is
unreachable for dict-shaped metadata. -/
def Landsatband.newmetaformatProp (self : Landsatband) : Except PyErr Bool :=
  match self.scene with
  | some sc => .ok sc.newmetaformat
  | none =>
      match self.meta with
      | none => .error (.typeError noneSubscriptMsg)
      | some m =>
          match lookupMeta m "METADATA_FILE_INFO" "PROCESSING_SOFTWARE_VERSION" with
          | .ok _ => .ok true
          | .error _ =>
              match lookupMeta m "PRODUCT_METADATA" "PROCESSING_SOFTWARE" with
              | .ok _ => .ok false
              | .error e => .error e

/-- The dual-gain token substitution of the new metadata format
(L becomes _VCID_1, H becomes _VCID_2), applied in source order. -/
def vcidToken (b : String) : String :=
  replaceChar 'H' "_VCID_2" (replaceChar 'L' "_VCID_1" b)

/-- The dual-gain token substitution of the legacy metadata format
(L becomes 1, H becomes 2), applied in source order. -/
def legacyToken (b : String) : String :=
  replaceChar 'H' "2" (replaceChar 'L' "1" b)

/-- Landsatband.radiance property (lines 198-223).  L8 reads gain and
bias directly from RADIOMETRIC_RESCALING; other spacecraft derive them
from the min/max radiance and quantized-value quadruple, under new- or
legacy-format key names with the dual-gain token substituted.  Absent
metadata is a hard error; on the quadruple branches a band label of None
raises AttributeError from the replace call. -/
def Landsatband.radiance (self : Landsatband) : Except PyErr (List ℚ) :=
  if metaFalsy self.meta then
    .error (.pygaarstRasterError
      "Impossible to retrieve metadata for band. No radiance calculation possible.")
  else
    match self.meta with
    | none => .error (.typeError noneSubscriptMsg)
    | some m =>
        match self.spacecraftProp with
        | .error e => .error e
        | .ok sp =>
            if valEqStr sp "L8" then do
              let gain ← (← lookupMeta m "RADIOMETRIC_RESCALING"
                            ("RADIANCE_MULT_BAND_" ++ optBandStr self.band)) |> valToRat
              let bias ← (← lookupMeta m "RADIOMETRIC_RESCALING"
                            ("RADIANCE_ADD_BAND_" ++ optBandStr self.band)) |> valToRat
              pure (dn2rad self.data gain bias)
            else
              match self.newmetaformatProp with
              | .error e => .error e
              | .ok newfmt =>
                  match self.band with
                  | none => .error (.attributeError
                      "NoneType object has no attribute replace")
                  | some b =>
                      if newfmt then do
                        let bandstr := vcidToken b
                        let lmax ← (← lookupMeta m "MIN_MAX_RADIANCE"
                                      ("RADIANCE_MAXIMUM_BAND_" ++ bandstr)) |> valToRat
                        let lmin ← (← lookupMeta m "MIN_MAX_RADIANCE"
                                      ("RADIANCE_MINIMUM_BAND_" ++ bandstr)) |> valToRat
                        let qcalmax ← (← lookupMeta m "MIN_MAX_PIXEL_VALUE"
                                      ("QUANTIZE_CAL_MAX_BAND_" ++ bandstr)) |> valToRat
                        let qcalmin ← (← lookupMeta m "MIN_MAX_PIXEL_VALUE"
                                      ("QUANTIZE_CAL_MIN_BAND_" ++ bandstr)) |> valToRat
                        let gb := gainbias lmax lmin qcalmax qcalmin
                        pure (dn2rad self.data gb.1 gb.2)
                      else do
                        let bandstr := legacyToken b
                        let lmax ← (← lookupMeta m "MIN_MAX_RADIANCE"
                                      ("LMAX_BAND" ++ bandstr)) |> valToRat
                        let lmin ← (← lookupMeta m "MIN_MAX_RADIANCE"
                                      ("LMIN_BAND" ++ bandstr)) |> valToRat
                        let qcalmax ← (← lookupMeta m "MIN_MAX_PIXEL_VALUE"
                                      ("QCALMAX_BAND" ++ bandstr)) |> valToRat
                        let qcalmin ← (← lookupMeta m "MIN_MAX_PIXEL_VALUE"
                                      ("QCALMIN_BAND" ++ bandstr)) |> valToRat
                        let gb := gainbias lmax lmin qcalmax qcalmin
                        pure (dn2rad self.data gb.1 gb.2)

/-- Outcome of Landsatband.reflectance.  The transcendental parts of the
formulas are left symbolic: an L8 result stands for
rawrad / sin(sunelevation times pi over 180), an L5/L7 result stands
for pi times d(julianday) squared times rad over esun(spacecraft, band)
times the same sine, with d and esun external lookup tables. -/
inductive Refl where
  | raised (e : PyErr)
  | pyNone
  | l8 (rawrad : List ℚ) (sedeg : ℚ)
  | l57 (rad : List ℚ) (sedeg : ℚ) (julianday : ℕ) (spid : String) (bandlbl : Option String)
deriving DecidableEq

/-- Landsatband.reflectance property (lines 225-249): L8 scales a direct
gain/bias radiance by solar elevation; L5/L7 read solar elevation and
acquisition date under format-dependent keys, extract the day of year
and apply the earth-sun distance and solar-irradiance formula; other
spacecraft return None. -/
def Landsatband.reflectance (self : Landsatband) : Refl :=
  if metaFalsy self.meta then
    .raised (.pygaarstRasterError
      "Impossible to retrieve metadata for band. No reflectance calculation possible.")
  else
    match self.meta with
    | none => .raised (.typeError noneSubscriptMsg)
    | some m =>
        match self.spacecraftProp with
        | .error e => .raised e
        | .ok sp =>
            if valEqStr sp "L8" then
              match (do
                let gain ← (← lookupMeta m "RADIOMETRIC_RESCALING"
                              ("REFLECTANCE_MULT_BAND_" ++ optBandStr self.band)) |> valToRat
                let bias ← (← lookupMeta m "RADIOMETRIC_RESCALING"
                              ("REFLECTANCE_ADD_BAND_" ++ optBandStr self.band)) |> valToRat
                let sedeg ← (← lookupMeta m "IMAGE_ATTRIBUTES" "SUN_ELEVATION") |> valToRat
                pure (dn2rad self.data gain bias, sedeg) : Except PyErr (List ℚ × ℚ)) with
              | .error e => .raised e
              | .ok rr => .l8 rr.1 rr.2
            else if valEqStr sp "L5" ∨ valEqStr sp "L7" then
              match (do
                let sedeg ← (← (if (← self.newmetaformatProp) then
                                  lookupMeta m "IMAGE_ATTRIBUTES" "SUN_ELEVATION"
                                else
                                  lookupMeta m "PRODUCT_PARAMETERS" "SUN_ELEVATION")) |> valToRat
                let dac ← if (← self.newmetaformatProp) then
                            lookupMeta m "PRODUCT_METADATA" "DATE_ACQUIRED"
                          else
                            lookupMeta m "PRODUCT_METADATA" "ACQUISITION_DATE"
                let julian ← match dac with
                  | .date y mo d => pure (dayOfYear y mo d)
                  | _ => Except.error (.typeError "strftime expects a date")
                let rad ← self.radiance
                pure (rad, sedeg, julian) : Except PyErr (List ℚ × ℚ × ℕ)) with
              | .error e => .raised e
              | .ok rr =>
                  .l57 rr.1 rr.2.1 rr.2.2
                    (match sp with | .str s => s | _ => "") self.band
            else .pyNone

/-- Provenance of the thermal constants K1 and K2 used by tKelvin: either
two per-band metadata values (the L8 path) or the fixed external table
keyed by spacecraft identifier (the pre-L8 path; spec note: the table
itself lives in landsatutils and its values are not part of the sources
under study). -/
inductive KSrc where
  | metaK (k1 k2 : Val)
  | tableK (spid : String)
deriving DecidableEq

/-- Outcome of Landsatband.tKelvin.  A kelvin result stands for
rad2kelvin(radiance, k1, k2) with the logarithmic formula left symbolic;
it records the radiance array and where the constants came from. -/
inductive TK where
  | raised (e : PyErr)
  | warnNone (msg : String)
  | kelvin (rad : List ℚ) (src : KSrc)
deriving DecidableEq

/-- The warning logged when brightness temperature is requested for a
band it is not implemented for (line 258). -/
def tempWarnMsg : String :=
  "Automatic brightness Temp not implemented. Cannot calculate temperature. Sorry."

/-- Landsatband.tKelvin property (lines 251-265).  Without a scene it
raises; a non-thermal band degrades to None with a warning; L8 thermal
bands read K1/K2 from TIRS_THERMAL_CONSTANTS per band; L4/L5/L7 thermal
bands take them from the fixed spacecraft table; any other spacecraft
falls through to rad2kelvin with the k1 attribute never set, raising
AttributeError after the radiance evaluates. -/
def Landsatband.tKelvin (self : Landsatband) : TK :=
  match self.scene with
  | none => .raised (.pygaarstRasterError
      "Impossible to retrieve metadata for band. No radiance calculation possible.")
  | some sc =>
      if sc.spacecraft = "L8" then
        if self.band ≠ some "10" ∧ self.band ≠ some "11" then
          .warnNone tempWarnMsg
        else
          match self.meta with
          | none => .raised (.typeError noneSubscriptMsg)
          | some m =>
              match lookupMeta m "TIRS_THERMAL_CONSTANTS"
                      ("K1_CONSTANT_BAND_" ++ optBandStr self.band) with
              | .error e => .raised e
              | .ok k1 =>
                  match lookupMeta m "TIRS_THERMAL_CONSTANTS"
                          ("K2_CONSTANT_BAND_" ++ optBandStr self.band) with
                  | .error e => .raised e
                  | .ok k2 =>
                      match self.radiance with
                      | .error e => .raised e
                      | .ok rad => .kelvin rad (.metaK k1 k2)
      else
        match self.band with
        | none => .raised (.attributeError
            "NoneType object has no attribute startswith")
        | some b =>
            if ¬ pyStartsWith b "6" then .warnNone tempWarnMsg
            else if sc.spacecraft = "L4" ∨ sc.spacecraft = "L5" ∨ sc.spacecraft = "L7" then
              match self.radiance with
              | .error e => .raised e
              | .ok rad => .kelvin rad (.tableK sc.spacecraft)
            else
              match self.radiance with
              | .error e => .raised e
              | .ok _ => .raised (.attributeError
                  "Landsatband object has no attribute k1")

/-! ## Scene-level indices (lines 337-357) -/

/-- Modelled from the spec: lu.NDVI_BANDS, the static table of band pairs
for the vegetation index, keyed by spacecraft; the spec fixes the L8
entry as (band5, band4).  The table lives in landsatutils, outside the
sources under study. -/
def NDVI_BANDS : List (String × (String × String)) := [("L8", ("band5", "band4"))]

/-- True for the exception class the NDVI/NBR try blocks catch
(except AttributeError, lines 344 and 355). -/
def isAttrErr : PyErr → Bool
  | .attributeError _ => true
  | _ => false

/-- The critical log message of the index computations
(Error accessing bands ... to calculate ...). -/
def criticalMsg (label1 label2 idxname : String) : String :=
  "Error accessing bands " ++ label1 ++ " and " ++ label2 ++ " to calculate " ++
    idxname ++ "."

/-- Result of an index computation: the value or re-raised exception,
plus the critical log messages emitted. -/
structure IndexRes where
  res : Except PyErr (List ℚ)
  logs : List String
deriving DecidableEq

/-- The shared body of Landsatscene.NDVI and Landsatscene.NBR (lines
340-346 and 351-357): access both bands through the attribute
interceptor, read their pixel arrays and take the normalized difference;
an AttributeError is logged with the band pair and re-raised, any other
exception propagates uncaught.  The fallback outcome stands for
object attribute lookup of a non-band label, which for the labels an
index table yields has no such attribute and raises AttributeError. -/
def Landsatscene.normdiffIndex (self : Landsatscene) (label1 label2 idxname : String) :
    IndexRes :=
  match self.getattr label1 with
  | .raised e _ =>
      { res := .error e,
        logs := if isAttrErr e then [criticalMsg label1 label2 idxname] else [] }
  | .fallback =>
      { res := .error (.attributeError label1),
        logs := [criticalMsg label1 label2 idxname] }
  | .found r1 =>
      match r1.scene.getattr label2 with
      | .raised e _ =>
          { res := .error e,
            logs := if isAttrErr e then [criticalMsg label1 label2 idxname] else [] }
      | .fallback =>
          { res := .error (.attributeError label2),
            logs := [criticalMsg label1 label2 idxname] }
      | .found r2 =>
          { res := .ok (normdiff r1.band.data r2.band.data), logs := [] }

/-- Landsatscene.NDVI property (lines 337-346): look the band pair up in
the static table (outside the try block, so a missing spacecraft key
raises KeyError unlogged) and take the normalized difference. -/
def Landsatscene.NDVI (self : Landsatscene) : IndexRes :=
  match alookup NDVI_BANDS self.spacecraft with
  | none => { res := .error (.keyError self.spacecraft), logs := [] }
  | some p => self.normdiffIndex p.1 p.2 "NDVI"

/-! ## GeoTIFF clone (lines 88-144)

The filesystem the clone call touches is modelled explicitly: a set of
existing directories and a map from path to created raster file. -/

/-- A numpy array: its shape, the name of its element dtype, and the
flattened samples in row-major order. -/
structure NpArray where
  shape : List ℕ
  dtypeName : String
  flat : List ℚ
deriving DecidableEq

/-- numpy ndarray.ndim. -/
def NpArray.ndim (a : NpArray) : ℕ := a.shape.length

/-- Indexing a[idx, ...]: the idx-th slice along the first axis, or
IndexError when idx is out of bounds. -/
def npSlice (a : NpArray) (idx : ℕ) : Except PyErr (List ℚ) :=
  match a.shape with
  | [] => .error (.indexError "too many indices for array")
  | n0 :: rest =>
      if idx < n0 then .ok ((a.flat.drop (idx * rest.prod)).take rest.prod)
      else .error (.indexError ("index " ++ toString idx ++
        " is out of bounds for axis 0 with size " ++ toString n0))

/-- A raster dataset created through the GTiff driver: dimensions, band
count, GDAL type code, projection and geotransform, plus the per-band
data written so far (band index is 1-based). -/
structure CreatedTIFF where
  path : String
  ncol : ℕ
  nrow : ℕ
  nbands : ℕ
  gdaltype : ℕ
  proj : String
  gtr : List ℚ
  written : List (ℕ × List ℚ)
deriving DecidableEq

/-- The filesystem state: existing directories and raster files. -/
structure FS where
  dirs : List String
  files : List (String × CreatedTIFF)
deriving DecidableEq

/-- A GeoTIFF accessor (class GeoTIFF, lines 40-65): path, dimensions,
geotransform, projection, and the samples gdal would read, flattened
band-major. -/
structure GeoTIFF where
  filepath : String
  ncol : ℕ
  nrow : ℕ
  nbands : ℕ
  gtr : List ℚ
  proj : String
  flat : List ℚ
deriving DecidableEq

/-- Shape of self.data (gdal ReadAsArray): two-dimensional for a
single-band raster, band-major three-dimensional otherwise. -/
def GeoTIFF.dataShape (g : GeoTIFF) : List ℕ :=
  if g.nbands = 1 then [g.nrow, g.ncol] else [g.nbands, g.nrow, g.ncol]

/-- Shape of self.data[0, ...], the second shape the clone validation
accepts. -/
def GeoTIFF.dataSliceShape (g : GeoTIFF) : List ℕ := g.dataShape.drop 1

/-- The numpy-dtype-name to GDAL-type-code table of clone (lines
100-111).  The dict literal in the source is missing the comma after the
float32 entry, a syntax defect the spec flags as such (design note 9);
the mapping here is the intended one the spec infers. -/
def NPDTYPE2GDALTYPECODE : List (String × ℕ) :=
  [("uint8", 1), ("int8", 1), ("uint16", 2), ("int16", 3), ("uint32", 4),
   ("int32", 5), ("float32", 6), ("float64", 7), ("complex64", 10),
   ("complex128", 11)]

/-- The warning logged when the clone target is an existing directory
(line 118).  The source passes no argument for the percent placeholder,
so the format string is logged literally. -/
def dirWarnMsg : String :=
  "%s is a directory. Choose a name that is suitable to writing a dataset to."

/-- gdal GetDriverByName(GTiff).Create followed by SetProjection and
SetGeoTransform: fails where a directory already occupies the path,
otherwise registers a fresh dataset with no band data written yet. -/
def gdalCreate (fs : FS) (path : String) (ncol nrow bands gdaltype : ℕ)
    (proj : String) (gtr : List ℚ) : Except PyErr (CreatedTIFF × FS) :=
  if path ∈ fs.dirs then
    .error (.runtimeError ("Unable to create file " ++ path))
  else
    let t : CreatedTIFF :=
      { path := path, ncol := ncol, nrow := nrow, nbands := bands,
        gdaltype := gdaltype, proj := proj, gtr := gtr, written := [] }
    .ok (t, { fs with files := dictSet fs.files path t })

/-- The multi-band write loop of clone (lines 140-142): for idx in
range(dims) write newdata[idx] into band idx+1.  Note the loop bound is
the number of array dimensions, not the band count; GetRasterBand
past the band count fails (gdal runs with exceptions enabled), and the
slice lookup past the first axis raises IndexError. -/
def writeBands (t : CreatedTIFF) (nd : NpArray) (dims bands : ℕ) :
    Except PyErr CreatedTIFF :=
  (List.range dims).foldlM (fun acc idx =>
    if bands < idx + 1 then
      .error (.runtimeError ("Illegal band #" ++ toString (idx + 1) ++ " requested"))
    else do
      let slice ← npSlice nd idx
      pure { acc with written := dictSet acc.written (idx + 1) slice }) t

/-- Reopening the created file as a GeoTIFF accessor (the final
return GeoTIFF(newpath)); unwritten bands read back as zero samples. -/
def CreatedTIFF.toGeoTIFF (t : CreatedTIFF) : GeoTIFF :=
  { filepath := t.path, ncol := t.ncol, nrow := t.nrow, nbands := t.nbands,
    gtr := t.gtr, proj := t.proj,
    flat := ((List.range t.nbands).map (fun i =>
      (alookup t.written (i + 1)).getD (List.replicate (t.nrow * t.ncol) 0))).flatten }

/-- Everything clone does after the destination-path checks (lines
119-144): shape validation, dimension-to-band-count mapping, dtype
mapping, dataset creation, band writes, and reopening.  Returns the
result together with the filesystem as left behind (the dataset file
exists from the Create call on, even if a later write fails). -/
def GeoTIFF.cloneBody (self : GeoTIFF) (fs : FS) (newpath : String) (newdata : NpArray) :
    Except PyErr GeoTIFF × FS :=
  if newdata.shape ≠ self.dataShape ∧ newdata.shape ≠ self.dataSliceShape then
    (.error (.pygaarstRasterError "New and cloned GeoTIFF dataset must be the same shape."), fs)
  else
    let dims := newdata.ndim
    match (if dims = 2 then .ok 1
           else if 2 < dims then .ok (newdata.shape.headD 0)
           else .error (.pygaarstRasterError
             ("New data array has only " ++ toString dims ++ " dimensions."))
           : Except PyErr ℕ) with
    | .error e => (.error e, fs)
    | .ok bands =>
        match alookup NPDTYPE2GDALTYPECODE newdata.dtypeName with
        | none =>
            (.error (.pygaarstRasterError
              ("Data type in array cannot be converted to GDAL data type: \n" ++
               newdata.dtypeName)), fs)
        | some gdaltype =>
            match gdalCreate fs newpath self.ncol self.nrow bands gdaltype
                    self.proj self.gtr with
            | .error e => (.error e, fs)
            | .ok tfs =>
                match (if dims = 2 then
                         .ok { tfs.1 with written := dictSet tfs.1.written 1 newdata.flat }
                       else writeBands tfs.1 newdata dims bands
                       : Except PyErr CreatedTIFF) with
                | .error e => (.error e, tfs.2)
                | .ok t2 =>
                    (.ok t2.toGeoTIFF, { tfs.2 with files := dictSet tfs.2.files newpath t2 })

/-- Result of a clone call: outcome, filesystem afterwards, and the
warnings logged. -/
structure CloneOut where
  res : Except PyErr GeoTIFF
  fs : FS
  warnings : List String
deriving DecidableEq

/-- GeoTIFF.clone (lines 88-144).  The destination checks come first: a
nonempty parent directory that does not exist is a hard
PygaarstRasterError; a target that is itself a directory only logs a
warning and execution continues into the body. -/
def GeoTIFF.clone (self : GeoTIFF) (fs : FS) (newpath : String) (newdata : NpArray) :
    CloneOut :=
  let sp := pySplit newpath
  if sp.1 ≠ "" ∧ sp.1 ∉ fs.dirs then
    { res := .error (.pygaarstRasterError
        (sp.1 ++ " is not a valid directory to save file to ")),
      fs := fs, warnings := [] }
  else
    let warns := if newpath ∈ fs.dirs then [dirWarnMsg] else []
    let out := self.cloneBody fs newpath newdata
    { res := out.1, fs := out.2, warnings := warns }

/-- The scene a getattr result carries, with a default for the non-band
outcomes; used to chain a second access after a first one. -/
def GetattrRes.sceneAfter (r : GetattrRes) (dflt : Landsatscene) : Landsatscene :=
  match r with
  | .found x => x.scene
  | _ => dflt

/-! ## Concrete instances used to evaluate the embedded code -/

/-- A new-format Landsat 7 scene whose metadata carries a file name both
under the key the spec names (without the band number) and under the key
the code builds (with the band number), so the two can be told apart. -/
def exSceneNew : Landsatscene :=
  { dirname := "d"
    infx := ""
    meta := [("PRODUCT_METADATA",
      [("FILE_NAME_BAND__VCID_1", .str "speckey1.TIF"),
       ("FILE_NAME_BAND__VCID_2", .str "speckey2.TIF"),
       ("FILE_NAME_BAND_6_VCID_1", .str "codekey1.TIF"),
       ("FILE_NAME_BAND_6_VCID_2", .str "codekey2.TIF")])]
    newmetaformat := true
    spacecraft := "L7"
    permissiblebands := ["1", "2", "3", "4", "5", "6L", "6H", "7", "8"]
    bands := []
    disk := [] }

/-- The legacy-format counterpart of `exSceneNew`. -/
def exSceneOld : Landsatscene :=
  { dirname := "d"
    infx := ""
    meta := [("PRODUCT_METADATA",
      [("BAND1_FILE_NAME", .str "speckey1.TIF"),
       ("BAND2_FILE_NAME", .str "speckey2.TIF"),
       ("BAND61_FILE_NAME", .str "codekey1.TIF"),
       ("BAND62_FILE_NAME", .str "codekey2.TIF")])]
    newmetaformat := false
    spacecraft := "L7"
    permissiblebands := ["1", "2", "3", "4", "5", "6L", "6H", "7", "8"]
    bands := []
    disk := [] }

/-- A minimal new-format Landsat 7 scene with one resolvable band. -/
def exScene : Landsatscene :=
  { dirname := "d"
    infx := ""
    meta := [("PRODUCT_METADATA", [("FILE_NAME_BAND_6_VCID_1", .str "b6.TIF")])]
    newmetaformat := true
    spacecraft := "L7"
    permissiblebands := ["1", "2", "3", "4", "5", "6L", "6H", "7", "8"]
    bands := []
    disk := [] }

/-- The band the access of band6L on `exScene` resolves and constructs. -/
def exBand : Landsatband := mkLandsatband "d/b6.TIF" (some "6L") (some exScene.core) []

/-- The full outcome of the access of band6L on `exScene`. -/
def exOk : GetattrOk :=
  { band := exBand
    scene := { exScene with bands := [("6L", exBand)] }
    events := [.metaLookup "PRODUCT_METADATA" "FILE_NAME_BAND_6_VCID_1",
               .constructBand "d/b6.TIF"] }

/-- A single-band one-pixel source raster. -/
def exG1 : GeoTIFF :=
  { filepath := "s.tif"
    ncol := 1
    nrow := 1
    nbands := 1
    gtr := [0, 1, 0, 0, 0, -1]
    proj := "PRJ"
    flat := [1] }

/-- A two-band one-pixel source raster. -/
def exG2 : GeoTIFF :=
  { filepath := "src.tif"
    ncol := 1
    nrow := 1
    nbands := 2
    gtr := [0, 1, 0, 0, 0, -1]
    proj := "PRJ"
    flat := [1, 2] }

/-- A filesystem with one existing output directory. -/
def exFs : FS := { dirs := ["out"], files := [] }

/-- A filesystem where the clone target out/sub is itself a directory. -/
def exFs4 : FS := { dirs := ["out", "out/sub"], files := [] }

/-- Replacement pixel data matching `exG1`: shape (1, 1), supported dtype. -/
def exNd1 : NpArray := { shape := [1, 1], dtypeName := "uint8", flat := [9] }

/-- Replacement pixel data matching `exG2`: shape (2, 1, 1), supported dtype. -/
def exNd2 : NpArray := { shape := [2, 1, 1], dtypeName := "uint8", flat := [5, 7] }

/-- Replacement pixel data matching `exG1` in shape with an element type
outside the supported table (a 16-bit-component complex). -/
def exNdBadType : NpArray := { shape := [1, 1], dtypeName := "complex32", flat := [9] }

/-- A Landsat 8 scene with the full permissible-band list. -/
def exSceneL8 : Landsatscene :=
  { dirname := "d"
    infx := ""
    meta := [("PRODUCT_METADATA", [("FILE_NAME_BAND_5", .str "B5.TIF")])]
    newmetaformat := true
    spacecraft := "L8"
    permissiblebands := ["1", "2", "3", "4", "5", "6", "7", "8", "9", "10", "11"]
    bands := []
    disk := [] }

/-- A non-thermal Landsat 8 band (label 5) bound to `exSceneL8`. -/
def exBandNonThermal : Landsatband :=
  mkLandsatband "d/B5.TIF" (some "5") (some exSceneL8.core) [3]

/-- Complete legacy metadata for the Landsat 7 high-gain thermal band:
the file name key and the calibration quadruple under their legacy
names, with values chosen to make gain 1 and bias 0. -/
def exMetaL7 : Metadata :=
  [("PRODUCT_METADATA", [("BAND62_FILE_NAME", .str "L7_B62.TIF")]),
   ("MIN_MAX_RADIANCE", [("LMAX_BAND62", .rat 255), ("LMIN_BAND62", .rat 0)]),
   ("MIN_MAX_PIXEL_VALUE", [("QCALMAX_BAND62", .rat 255), ("QCALMIN_BAND62", .rat 0)])]

/-- A legacy-format Landsat 7 scene over `exMetaL7`. -/
def exSceneL7 : Landsatscene :=
  { dirname := "d"
    infx := ""
    meta := exMetaL7
    newmetaformat := false
    spacecraft := "L7"
    permissiblebands := ["1", "2", "3", "4", "5", "6L", "6H", "7", "8"]
    bands := []
    disk := [("d/L7_B62.TIF", [100])] }

/-- The high-gain thermal band 6H bound to `exSceneL7`. -/
def exBandL7_6H : Landsatband :=
  mkLandsatband "d/L7_B62.TIF" (some "6H") (some exSceneL7.core) [100]

/-- A Landsat 8 scene whose metadata lacks the file name key of band 5,
so accessing band5 raises KeyError. -/
def exSceneC9 : Landsatscene :=
  { dirname := "d"
    infx := ""
    meta := [("PRODUCT_METADATA", [("FILE_NAME_BAND_4", .str "B4.TIF")])]
    newmetaformat := true
    spacecraft := "L8"
    permissiblebands := ["1", "2", "3", "4", "5", "6", "7", "8", "9", "10", "11"]
    bands := []
    disk := [] }

/-- A Landsat 8 scene value whose permissible-band set lacks the NDVI
band 5, so accessing band5 raises the unsupported-band error. -/
def exSceneC9b : Landsatscene :=
  { dirname := "d"
    infx := ""
    meta := []
    newmetaformat := true
    spacecraft := "L8"
    permissiblebands := ["4"]
    bands := []
    disk := [] }

/-- Calibration metadata set directly on a standalone band, as the
warning in Landsatband.init instructs a user to do: spacecraft
identifier plus the L8 radiance and reflectance coefficients for band
10 and the solar elevation. -/
def metaStandalone : Metadata :=
  [("PRODUCT_METADATA", [("SPACECRAFT_ID", .str "L8")]),
   ("RADIOMETRIC_RESCALING",
     [("RADIANCE_MULT_BAND_10", .rat 1), ("RADIANCE_ADD_BAND_10", .rat 0),
      ("REFLECTANCE_MULT_BAND_10", .rat 2), ("REFLECTANCE_ADD_BAND_10", .rat 1)]),
   ("IMAGE_ATTRIBUTES", [("SUN_ELEVATION", .rat 45)])]

/-- A band not associated with any scene, with `metaStandalone` set
directly on it. -/
def standaloneBand : Landsatband :=
  { filepath := "B10.TIF"
    band := some "10"
    scene := none
    meta := some metaStandalone
    data := [100] }

/-! ## General lemmas about the attribute interceptor -/

/-- The resolution part of an attribute access never reads the band
cache: the outcome is the same over any cache contents. -/
theorem getattrRaw_bands_irrel (s : Landsatscene) (l : List (String × Landsatband))
    (n : String) : ({ s with bands := l } : Landsatscene).getattrRaw n = s.getattrRaw n := by
  cases s
  rfl

/-- Overwriting the bands field twice keeps only the second write. -/
theorem bands_update_collapse (s : Landsatscene) (l x : List (String × Landsatband)) :
    ({ ({ s with bands := l } : Landsatscene) with bands := x } : Landsatscene) =
      { s with bands := x } := by
  cases s
  rfl

/-- When resolution yields a band, its stored label is the one extracted
from the attribute name, and the effects are exactly one metadata lookup
of the resolver key followed by one band construction at the resolved
path. -/
theorem getattrRaw_band_inv (s : Landsatscene) (n : String) (b : Landsatband)
    (label : String) (evs : List Event)
    (h : s.getattrRaw n = .band b label evs) :
    label = bandLabel n ∧
    evs = [.metaLookup "PRODUCT_METADATA" (resolveKeyname s.newmetaformat label),
           .constructBand b.filepath] := by
  unfold Landsatscene.getattrRaw at h
  rcases hp : pyPartition (pyLower n) "band" with ⟨head, sep, tail⟩
  rw [hp] at h
  simp only at h
  split at h
  · split at h
    · split at h
      · exact absurd h (by simp)
      · split at h
        · cases h
          constructor
          · simp [bandLabel, hp]
          · rfl
        · exact absurd h (by simp)
    · exact absurd h (by simp)
  · exact absurd h (by simp)

/-- The first effect of an attribute access of a permissible band label
is the metadata lookup at the key the resolver builds, whether or not
the key is present. -/
theorem getattr_eventsOf_head (s : Landsatscene) (n tail : String)
    (hp : pyPartition (pyLower n) "band" = ("", "band", tail))
    (hmem : pyUpper tail ∈ s.permissiblebands) :
    (s.getattr n).eventsOf.head? =
      some (.metaLookup "PRODUCT_METADATA"
        (resolveKeyname s.newmetaformat (pyUpper tail))) := by
  unfold Landsatscene.getattr Landsatscene.getattrRaw
  rw [hp]
  simp only [if_pos rfl, if_pos hmem]
  rcases hl : lookupMeta s.meta "PRODUCT_METADATA"
      (resolveKeyname s.newmetaformat (pyUpper tail)) with e | v
  · rfl
  · cases v <;> rfl

/-- Pixel data whose shape passes the clone validation against the
source raster is two- or three-dimensional. -/
theorem ndim_two_or_three (g : GeoTIFF) (d : NpArray)
    (h : d.shape = g.dataShape ∨ (1 < g.nbands ∧ d.shape = g.dataSliceShape)) :
    d.ndim = 2 ∨ d.ndim = 3 := by
  unfold NpArray.ndim
  rcases h with h | ⟨hn, h⟩
  · rw [h]
    unfold GeoTIFF.dataShape
    split <;> simp
  · rw [h]
    unfold GeoTIFF.dataSliceShape GeoTIFF.dataShape
    rw [if_neg (by omega)]
    simp

/-! ## Claim C1 -/

/-- Claim C1, counterexample.  The claim names the metadata keys
FILE_NAME_BAND__VCID_1 (new format) and BAND1_FILE_NAME (legacy) for a
Landsat 7 band 6L request.  On a scene whose metadata carries file names
under both the keys of the claim and the keys with the band number kept,
the resolver reads FILE_NAME_BAND_6_VCID_1 resp. BAND61_FILE_NAME — the
band number 6 is retained, only the gain suffix is substituted — and the
constructed band comes from those entries, not from the claimed keys. -/
theorem C1_counterexample :
    (exSceneNew.getattr "band6L").eventsOf =
      [.metaLookup "PRODUCT_METADATA" "FILE_NAME_BAND_6_VCID_1",
       .constructBand "d/codekey1.TIF"] ∧
    (exSceneOld.getattr "band6L").eventsOf =
      [.metaLookup "PRODUCT_METADATA" "BAND61_FILE_NAME",
       .constructBand "d/codekey1.TIF"] ∧
    "FILE_NAME_BAND_6_VCID_1" ≠ "FILE_NAME_BAND__VCID_1" ∧
    "BAND61_FILE_NAME" ≠ "BAND1_FILE_NAME" :=
  ⟨by decide, by decide, by decide, by decide⟩

/-- Claim C1, amended.  For a Landsat 7 scene, requesting band 6L looks
the band file name up under metadata key FILE_NAME_BAND_6_VCID_1 when the
scene uses the new metadata format, and under key BAND61_FILE_NAME under
the legacy format; correspondingly 6H maps to FILE_NAME_BAND_6_VCID_2 and
BAND62_FILE_NAME.  (The band number is kept; only the gain suffix L/H is
replaced by the _VCID_1/_VCID_2 resp. 1/2 tokens.) -/
theorem C1_amended_keynames :
    (∀ s : Landsatscene, s.newmetaformat = true → "6L" ∈ s.permissiblebands →
      (s.getattr "band6L").eventsOf.head? =
        some (.metaLookup "PRODUCT_METADATA" "FILE_NAME_BAND_6_VCID_1")) ∧
    (∀ s : Landsatscene, s.newmetaformat = false → "6L" ∈ s.permissiblebands →
      (s.getattr "band6L").eventsOf.head? =
        some (.metaLookup "PRODUCT_METADATA" "BAND61_FILE_NAME")) ∧
    (∀ s : Landsatscene, s.newmetaformat = true → "6H" ∈ s.permissiblebands →
      (s.getattr "band6H").eventsOf.head? =
        some (.metaLookup "PRODUCT_METADATA" "FILE_NAME_BAND_6_VCID_2")) ∧
    (∀ s : Landsatscene, s.newmetaformat = false → "6H" ∈ s.permissiblebands →
      (s.getattr "band6H").eventsOf.head? =
        some (.metaLookup "PRODUCT_METADATA" "BAND62_FILE_NAME")) := by
  refine ⟨fun s hf hm => ?_, fun s hf hm => ?_, fun s hf hm => ?_, fun s hf hm => ?_⟩
  · have h := getattr_eventsOf_head s "band6L" "6l" (by decide)
      ((by decide : pyUpper "6l" = "6L") ▸ hm)
    rw [hf, show resolveKeyname true (pyUpper "6l") = "FILE_NAME_BAND_6_VCID_1" from by decide] at h
    exact h
  · have h := getattr_eventsOf_head s "band6L" "6l" (by decide)
      ((by decide : pyUpper "6l" = "6L") ▸ hm)
    rw [hf, show resolveKeyname false (pyUpper "6l") = "BAND61_FILE_NAME" from by decide] at h
    exact h
  · have h := getattr_eventsOf_head s "band6H" "6h" (by decide)
      ((by decide : pyUpper "6h" = "6H") ▸ hm)
    rw [hf, show resolveKeyname true (pyUpper "6h") = "FILE_NAME_BAND_6_VCID_2" from by decide] at h
    exact h
  · have h := getattr_eventsOf_head s "band6H" "6h" (by decide)
      ((by decide : pyUpper "6h" = "6H") ▸ hm)
    rw [hf, show resolveKeyname false (pyUpper "6h") = "BAND62_FILE_NAME" from by decide] at h
    exact h

/-- Claim C1, witness: the amended key names evaluated on concrete new-
and legacy-format Landsat 7 scenes. -/
theorem C1_amended_keynames_witness :
    (exSceneNew.newmetaformat = true ∧ "6L" ∈ exSceneNew.permissiblebands ∧
      (exSceneNew.getattr "band6L").eventsOf.head? =
        some (.metaLookup "PRODUCT_METADATA" "FILE_NAME_BAND_6_VCID_1")) ∧
    (exSceneOld.newmetaformat = false ∧ "6L" ∈ exSceneOld.permissiblebands ∧
      (exSceneOld.getattr "band6L").eventsOf.head? =
        some (.metaLookup "PRODUCT_METADATA" "BAND61_FILE_NAME")) ∧
    (exSceneNew.getattr "band6H").eventsOf.head? =
      some (.metaLookup "PRODUCT_METADATA" "FILE_NAME_BAND_6_VCID_2") ∧
    (exSceneOld.getattr "band6H").eventsOf.head? =
      some (.metaLookup "PRODUCT_METADATA" "BAND62_FILE_NAME") :=
  ⟨⟨rfl, by decide, C1_amended_keynames.1 exSceneNew rfl (by decide)⟩,
   ⟨rfl, by decide, C1_amended_keynames.2.1 exSceneOld rfl (by decide)⟩,
   C1_amended_keynames.2.2.1 exSceneNew rfl (by decide),
   C1_amended_keynames.2.2.2 exSceneOld rfl (by decide)⟩

/-! ## Claim C2 -/

/-- Claim C2, counterexample.  The claim says a second access of the same
band label returns the cached Band without resolving the file or
constructing a new Band again.  Running the access twice on a concrete
scene, the second access still performs the metadata lookup and a fresh
band construction: its event trace is not empty but repeats the full
resolution. -/
theorem C2_counterexample :
    (((exScene.getattr "band6L").sceneAfter exScene).getattr "band6L").eventsOf =
      [.metaLookup "PRODUCT_METADATA" "FILE_NAME_BAND_6_VCID_1",
       .constructBand "d/b6.TIF"] := by decide

/-- Claim C2, amended.  Every access of a permissible band label — first
or repeated — resolves the file name from the metadata and constructs a
new Band, stores it into the band mapping under the extracted label
(overwriting any previous entry) and returns it; the mapping is written
but never consulted by the access path, so the outcome is independent of
the cache contents. -/
theorem C2_amended_always_constructs : ∀ (s : Landsatscene) (n : String) (r : GetattrOk),
    s.getattr n = .found r →
    Event.constructBand r.band.filepath ∈ r.events ∧
    r.scene = { s with bands := dictSet s.bands (bandLabel n) r.band } ∧
    ∀ l, ({ s with bands := l } : Landsatscene).getattr n =
      .found { band := r.band
               scene := { s with bands := dictSet l (bandLabel n) r.band }
               events := r.events } := by
  intro s n r h
  unfold Landsatscene.getattr at h
  rcases hr : s.getattrRaw n with ⟨b, lab, evs⟩ | ⟨e, evs⟩ | _ <;> rw [hr] at h
  · cases h
    obtain ⟨hlab, hevs⟩ := getattrRaw_band_inv s n b lab evs hr
    subst hlab
    refine ⟨by rw [hevs]; simp, rfl, ?_⟩
    intro l
    unfold Landsatscene.getattr
    rw [getattrRaw_bands_irrel, hr]
  · simp at h
  · simp at h

/-- Claim C2, witness: the always-constructs behavior evaluated on a
concrete scene, including independence from a pre-filled cache. -/
theorem C2_amended_always_constructs_witness :
    exScene.getattr "band6L" = .found exOk ∧
    Event.constructBand exOk.band.filepath ∈ exOk.events ∧
    exOk.scene = { exScene with bands := dictSet exScene.bands (bandLabel "band6L") exOk.band } ∧
    ({ exScene with bands := [("X", exBand)] } : Landsatscene).getattr "band6L" =
      .found { band := exOk.band
               scene := { exScene with
                 bands := dictSet [("X", exBand)] (bandLabel "band6L") exOk.band }
               events := exOk.events } := by
  have hfound : exScene.getattr "band6L" = .found exOk := by decide
  have h := C2_amended_always_constructs exScene "band6L" exOk hfound
  exact ⟨hfound, h.1, h.2.1, h.2.2 [("X", exBand)]⟩

/-! ## Claim C3 -/

/-- Claim C3: the multi-band write loop of clone iterates over the number
of array dimensions (always 3 for multi-band data) instead of the band
count, so cloning a two-band raster with matching two-band pixel data of
a supported element type — data that passes every validation — requests
raster band 3 of the two-band target and fails instead of producing the
cloned file; the claim as stated (clone succeeds and writes newPixelData
into every band) is the intended behavior, and the loop bound is the
slip. -/
theorem C3_writeloop_evaluation :
    (exG2.clone exFs "out/c.tif" exNd2).res =
      .error (.runtimeError "Illegal band #3 requested") ∧
    exNd2.shape = exG2.dataShape ∧
    alookup NPDTYPE2GDALTYPECODE exNd2.dtypeName = some 1 :=
  ⟨by decide, by decide, by decide⟩

/-! ## Claim C4 -/

/-- Claim C4, counterexample.  The claim says clone raises a hard
InvalidDestination error when the target path is an existing directory.
On a concrete call whose target out/sub is a directory, clone only logs
the warning and proceeds; the failure that eventually surfaces is the
raster creation error of the I/O provider, not a PygaarstRasterError. -/
theorem C4_counterexample :
    (exG1.clone exFs4 "out/sub" exNd1).warnings = [dirWarnMsg] ∧
    (exG1.clone exFs4 "out/sub" exNd1).res =
      .error (.runtimeError "Unable to create file out/sub") ∧
    ∀ m : String, (exG1.clone exFs4 "out/sub" exNd1).res ≠
      .error (.pygaarstRasterError m) := by
  refine ⟨by decide, by decide, ?_⟩
  intro m h
  rw [show (exG1.clone exFs4 "out/sub" exNd1).res =
    .error (.runtimeError "Unable to create file out/sub") from by decide] at h
  cases h

/-- Claim C4, amended.  clone raises the InvalidDestination
PygaarstRasterError exactly in the missing-parent-directory case (leaving
the filesystem untouched and logging nothing); when the target itself is
an existing directory it only logs a warning and execution continues into
the body. -/
theorem C4_amended_destination_checks :
    (∀ (g : GeoTIFF) (fs : FS) (p : String) (d : NpArray),
      (pySplit p).1 ≠ "" → (pySplit p).1 ∉ fs.dirs →
      g.clone fs p d =
        ⟨.error (.pygaarstRasterError
          ((pySplit p).1 ++ " is not a valid directory to save file to ")), fs, []⟩) ∧
    (∀ (g : GeoTIFF) (fs : FS) (p : String) (d : NpArray),
      ¬ ((pySplit p).1 ≠ "" ∧ (pySplit p).1 ∉ fs.dirs) → p ∈ fs.dirs →
      (g.clone fs p d).warnings = [dirWarnMsg]) := by
  constructor
  · intro g fs p d h1 h2
    unfold GeoTIFF.clone
    rw [if_pos ⟨h1, h2⟩]
  · intro g fs p d h1 h2
    unfold GeoTIFF.clone
    rw [if_neg h1]
    simp [h2]

/-- Claim C4, witness: both destination checks evaluated on concrete
calls. -/
theorem C4_amended_destination_checks_witness :
    (pySplit "nodir/c.tif").1 = "nodir" ∧
    "nodir" ∉ exFs.dirs ∧
    exG1.clone exFs "nodir/c.tif" exNd1 =
      ⟨.error (.pygaarstRasterError "nodir is not a valid directory to save file to "),
       exFs, []⟩ ∧
    "out/sub" ∈ exFs4.dirs ∧
    (exG1.clone exFs4 "out/sub" exNd1).warnings = [dirWarnMsg] := by
  refine ⟨by decide, by decide, ?_, by decide, ?_⟩
  · exact C4_amended_destination_checks.1 exG1 exFs "nodir/c.tif" exNd1 (by decide) (by decide)
  · exact C4_amended_destination_checks.2 exG1 exFs4 "out/sub" exNd1 (by decide) (by decide)

/-! ## Claim C5 -/

/-- Claim C5: for every clone call over a valid destination whose new
pixel data matches the source shape but whose element type is outside
the supported table, clone raises the descriptive UnsupportedDataType
PygaarstRasterError and the filesystem is unchanged — no file has been
created.  The supported table covers exactly the unsigned/signed
8/16/32-bit integers, the 32/64-bit floats and the 64/128-bit complex
types. -/
theorem C5_unsupported_dtype :
    (∀ (g : GeoTIFF) (fs : FS) (p : String) (d : NpArray),
      ¬ ((pySplit p).1 ≠ "" ∧ (pySplit p).1 ∉ fs.dirs) →
      (d.shape = g.dataShape ∨ (1 < g.nbands ∧ d.shape = g.dataSliceShape)) →
      alookup NPDTYPE2GDALTYPECODE d.dtypeName = none →
      (g.clone fs p d).res = .error (.pygaarstRasterError
        ("Data type in array cannot be converted to GDAL data type: \n" ++ d.dtypeName)) ∧
      (g.clone fs p d).fs = fs) ∧
    NPDTYPE2GDALTYPECODE.map Prod.fst =
      ["uint8", "int8", "uint16", "int16", "uint32", "int32", "float32",
       "float64", "complex64", "complex128"] := by
  refine ⟨?_, by decide⟩
  intro g fs p d hpath hshape hdt
  have hnotmis : ¬ (d.shape ≠ g.dataShape ∧ d.shape ≠ g.dataSliceShape) := by
    rcases hshape with h | ⟨_, h⟩
    · exact fun hc => hc.1 h
    · exact fun hc => hc.2 h
  have hdims := ndim_two_or_three g d hshape
  unfold GeoTIFF.clone
  rw [if_neg hpath]
  unfold GeoTIFF.cloneBody
  rw [if_neg hnotmis]
  rcases hdims with h2 | h3
  · simp only [h2, if_pos rfl, hdt]
    simp
  · simp only [h3]
    norm_num
    rw [hdt]
    simp

/-- Claim C5, witness: a complex32 array of matching shape is rejected
before any file is created. -/
theorem C5_unsupported_dtype_witness :
    alookup NPDTYPE2GDALTYPECODE "complex32" = none ∧
    (exG1.clone exFs "out/c.tif" exNdBadType).res = .error (.pygaarstRasterError
      "Data type in array cannot be converted to GDAL data type: \ncomplex32") ∧
    (exG1.clone exFs "out/c.tif" exNdBadType).fs = exFs := by
  have h := C5_unsupported_dtype.1 exG1 exFs "out/c.tif" exNdBadType
    (by decide) (by decide) (by decide)
  exact ⟨by decide, h.1, h.2⟩

/-! ## Claim C6 -/

/-- Claim C6: an attribute access of the form band X whose extracted
label X is not in the spacecraft permissible-band set raises the
PygaarstRasterError whose message names the spacecraft and lists all of
that spacecraft valid band labels. -/
theorem C6_unsupported_band : ∀ (s : Landsatscene) (n tail : String),
    pyPartition (pyLower n) "band" = ("", "band", tail) →
    pyUpper tail ∉ s.permissiblebands →
    s.getattr n = .raised (.pygaarstRasterError
      ("Spacecraft " ++ s.spacecraft ++ " does not have a band " ++ pyUpper tail ++
       ". Permissible band labels are " ++ joinSep ", " s.permissiblebands ++ ".")) [] := by
  intro s n tail hp hmem
  unfold Landsatscene.getattr Landsatscene.getattrRaw
  rw [hp]
  simp only [if_pos rfl, if_neg hmem]
  simp

/-- Claim C6, witness: requesting band99 of a Landsat 8 scene raises the
unsupported-band error listing the valid labels. -/
theorem C6_unsupported_band_witness :
    pyPartition (pyLower "band99") "band" = ("", "band", "99") ∧
    pyUpper "99" ∉ exSceneL8.permissiblebands ∧
    exSceneL8.getattr "band99" = .raised (.pygaarstRasterError
      ("Spacecraft " ++ exSceneL8.spacecraft ++ " does not have a band " ++ pyUpper "99" ++
       ". Permissible band labels are " ++ joinSep ", " exSceneL8.permissiblebands ++ ".")) [] :=
  ⟨by decide, by decide,
   C6_unsupported_band exSceneL8 "band99" "99" (by decide) (by decide)⟩

/-! ## Claim C7 -/

/-- Claim C7: a scene-bound band whose label is non-thermal — for L8, a
label outside 10/11; for any other spacecraft, a label not starting with
6 — yields a None brightness temperature together with the logged
warning, and does not raise. -/
theorem C7_nonthermal_warns : ∀ (b : Landsatband) (sc : SceneCore) (lbl : String),
    b.scene = some sc → b.band = some lbl →
    ((sc.spacecraft = "L8" ∧ lbl ≠ "10" ∧ lbl ≠ "11") ∨
     (sc.spacecraft ≠ "L8" ∧ pyStartsWith lbl "6" = false)) →
    b.tKelvin = .warnNone tempWarnMsg := by
  intro b sc lbl hs hb hcond
  rcases hcond with ⟨h8, h10, h11⟩ | ⟨h8, h6⟩
  · simp [Landsatband.tKelvin, hs, hb, h8, h10, h11]
  · simp [Landsatband.tKelvin, hs, hb, h8, h6]

/-- Claim C7, witness: the non-thermal L8 band 5 bound to a concrete
scene degrades to the warning outcome. -/
theorem C7_nonthermal_warns_witness :
    exBandNonThermal.scene = some exSceneL8.core ∧
    exBandNonThermal.band = some "5" ∧
    exSceneL8.core.spacecraft = "L8" ∧
    exBandNonThermal.tKelvin = .warnNone tempWarnMsg :=
  ⟨rfl, rfl, rfl,
   C7_nonthermal_warns exBandNonThermal exSceneL8.core "5" rfl rfl
     (Or.inl ⟨rfl, by decide, by decide⟩)⟩

/-! ## Claim C8 -/

/-- Claim C8: for a pre-L8 spacecraft (L4, L5, L7) band whose label
starts with 6, brightness temperature takes K1/K2 from the fixed table
keyed by the spacecraft identifier; and whenever the constants come from
a per-band metadata lookup, the spacecraft is L8 and the band is 10 or
11 — the metadata path is used only there. -/
theorem C8_thermal_constants :
    (∀ (b : Landsatband) (sc : SceneCore) (lbl : String) (rad : List ℚ),
      b.scene = some sc → b.band = some lbl →
      (sc.spacecraft = "L4" ∨ sc.spacecraft = "L5" ∨ sc.spacecraft = "L7") →
      pyStartsWith lbl "6" = true →
      b.radiance = .ok rad →
      b.tKelvin = .kelvin rad (.tableK sc.spacecraft)) ∧
    (∀ (b : Landsatband) (rad : List ℚ) (v1 v2 : Val),
      b.tKelvin = .kelvin rad (.metaK v1 v2) →
      ∃ sc : SceneCore, b.scene = some sc ∧ sc.spacecraft = "L8" ∧
        (b.band = some "10" ∨ b.band = some "11")) := by
  constructor
  · intro b sc lbl rad hs hb hsp h6 hrad
    have h8 : sc.spacecraft ≠ "L8" := by
      rcases hsp with h | h | h <;> simp [h]
    simp [Landsatband.tKelvin, hs, hb, h8, h6, hsp, hrad]
  · intro b rad v1 v2 h
    unfold Landsatband.tKelvin at h
    split at h
    · simp at h
    · rename_i sc heq
      refine ⟨sc, heq, ?_⟩
      by_cases h8 : sc.spacecraft = "L8"
      · rw [if_pos h8] at h
        refine ⟨h8, ?_⟩
        by_cases hcond : b.band ≠ some "10" ∧ b.band ≠ some "11"
        · rw [if_pos hcond] at h
          simp at h
        · rcases not_and_or.mp hcond with h10 | h11
          · exact Or.inl (not_not.mp h10)
          · exact Or.inr (not_not.mp h11)
      · rw [if_neg h8] at h
        exfalso
        split at h
        · simp at h
        · split at h
          · simp at h
          · split at h
            · split at h <;> simp at h
            · split at h <;> simp at h

/-- Claim C8, witness: the Landsat 7 high-gain thermal band 6H under
legacy metadata computes its radiance from the legacy calibration keys
and its brightness temperature sources K1/K2 from the fixed table for
L7, not from any metadata key. -/
theorem C8_thermal_constants_witness :
    exBandL7_6H.scene = some exSceneL7.core ∧
    exBandL7_6H.band = some "6H" ∧
    exSceneL7.core.spacecraft = "L7" ∧
    exBandL7_6H.radiance = .ok [100] ∧
    exBandL7_6H.tKelvin = .kelvin [100] (.tableK "L7") := by
  have hrad : exBandL7_6H.radiance = .ok [100] := by
    simp [Landsatband.radiance, exBandL7_6H, mkLandsatband, exSceneL7, Landsatscene.core,
          exMetaL7, Landsatband.spacecraftProp, Landsatband.newmetaformatProp,
          lookupMeta, alookup, valEqStr, valToRat, metaFalsy, optBandStr, legacyToken,
          replaceChar, gainbias, dn2rad, Except.bind, bind, Except.pure, pure]
  refine ⟨rfl, rfl, rfl, hrad, ?_⟩
  exact C8_thermal_constants.1 exBandL7_6H exSceneL7.core "6H" [100]
    rfl rfl (by decide) (by decide) hrad

/-! ## Claim C9 -/

/-- Claim C9, counterexample.  The claim says any band-access failure
under NDVI is caught, logged with the band pair, and re-raised.  On a
scene whose metadata lacks the band 5 file name key, the access raises
KeyError, which the except AttributeError clause does not catch: NDVI
propagates the error with an empty log.  On a scene value whose
permissible set lacks band 5, the unsupported-band PygaarstRasterError
likewise propagates unlogged. -/
theorem C9_counterexample :
    exSceneC9.NDVI = { res := .error (.keyError "FILE_NAME_BAND_5"), logs := [] } ∧
    exSceneC9b.NDVI =
      { res := .error (.pygaarstRasterError
          "Spacecraft L8 does not have a band 5. Permissible band labels are 4.")
        logs := [] } :=
  ⟨by decide, by decide⟩

/-- Claim C9, amended.  When accessing either band of an index pair
fails, the index computation returns that same failure and never a
partial result; the failure is logged with the band pair exactly when it
is an AttributeError (the only class the try blocks catch) — other
failures, including the unsupported-band and missing-key errors,
propagate without the logged context. -/
theorem C9_amended_catch_policy : ∀ (s : Landsatscene) (l1 l2 idxname : String),
    (∀ (e : PyErr) (evs : List Event), s.getattr l1 = .raised e evs →
      s.normdiffIndex l1 l2 idxname =
        { res := .error e
          logs := if isAttrErr e then [criticalMsg l1 l2 idxname] else [] }) ∧
    (∀ (r : GetattrOk) (e : PyErr) (evs : List Event),
      s.getattr l1 = .found r → r.scene.getattr l2 = .raised e evs →
      s.normdiffIndex l1 l2 idxname =
        { res := .error e
          logs := if isAttrErr e then [criticalMsg l1 l2 idxname] else [] }) := by
  intro s l1 l2 idxname
  constructor
  · intro e evs h
    unfold Landsatscene.normdiffIndex
    rw [h]
  · intro r e evs h1 h2
    unfold Landsatscene.normdiffIndex
    simp only [h1, h2]

/-- Claim C9, witness: the catch policy evaluated where band 5 access
fails with KeyError — the error propagates and nothing is logged. -/
theorem C9_amended_catch_policy_witness :
    exSceneC9.getattr "band5" = .raised (.keyError "FILE_NAME_BAND_5")
      [.metaLookup "PRODUCT_METADATA" "FILE_NAME_BAND_5"] ∧
    exSceneC9.normdiffIndex "band5" "band4" "NDVI" =
      { res := .error (.keyError "FILE_NAME_BAND_5"), logs := [] } := by
  refine ⟨by decide, ?_⟩
  have h := (C9_amended_catch_policy exSceneC9 "band5" "band4" "NDVI").1
    (.keyError "FILE_NAME_BAND_5")
    [.metaLookup "PRODUCT_METADATA" "FILE_NAME_BAND_5"] (by decide)
  simpa using h

/-! ## Claim C10 -/

/-- Claim C10: a band not associated with a scene raises the
PygaarstRasterError on any brightness-temperature request, whatever its
metadata — the guard tests the scene, not the metadata — while the same
standalone band with metadata set directly computes radiance and
reflectance, whose guards test only the metadata. -/
theorem C10_standalone_band :
    (∀ b : Landsatband, b.scene = none →
      b.tKelvin = .raised (.pygaarstRasterError
        "Impossible to retrieve metadata for band. No radiance calculation possible.")) ∧
    standaloneBand.scene = none ∧
    standaloneBand.meta = some metaStandalone ∧
    standaloneBand.radiance = .ok [100] ∧
    standaloneBand.reflectance = .l8 [201] 45 := by
  refine ⟨?_, rfl, rfl, ?_, ?_⟩
  · intro b h
    unfold Landsatband.tKelvin
    rw [h]
  · simp [Landsatband.radiance, standaloneBand, metaStandalone, Landsatband.spacecraftProp,
          lookupMeta, alookup, valEqStr, valToRat, metaFalsy, optBandStr, dn2rad,
          Except.bind, bind, Except.pure, pure]
  · simp [Landsatband.reflectance, standaloneBand, metaStandalone, Landsatband.spacecraftProp,
          lookupMeta, alookup, valEqStr, valToRat, metaFalsy, optBandStr, dn2rad,
          Except.bind, bind, Except.pure, pure]
    norm_num

/-- Claim C10, witness: the standalone band with metadata set directly
still raises on tKelvin. -/
theorem C10_standalone_band_witness :
    standaloneBand.scene = none ∧
    standaloneBand.tKelvin = .raised (.pygaarstRasterError
      "Impossible to retrieve metadata for band. No radiance calculation possible.") :=
  ⟨rfl, C10_standalone_band.1 standaloneBand rfl⟩

end Pygaarst
